import Mathlib

/-!
Verification of the subscription scheduling and delivery engine of
`sglre6355/weather-lady` (`internal/usecase/subscription_manager.go`),
against its natural-language specification.

Modelling conventions:
* Instants (`time.Time`) are local-time nanosecond counts (`Int`) on a
  linear calendar with 86400-second days (a fixed-offset location, as the
  scheduler evaluates everything in `now.Location()`).  Durations
  (`time.Duration`) are nanosecond counts (`Int`).
* External collaborators (capture port, dispatch port, persistence store)
  are represented by their per-call responses, supplied as parameters to
  the operation that consults them; `Except Err` models Go's `error`
  returns, with `Err.wrap` standing for `fmt.Errorf("...: %w", err)`.
* Goroutine channels: each `subscriptionEntry`'s `stopChan` is modelled by
  a `stopClosed` flag; `close` of an already-closed channel (a Go panic)
  is captured by the `closeListPanics` predicate.
* The injected test clock is part of the engine state (`clockNow`); the
  per-task timer is the entry's `deadline`, and the scheduler loop body
  (`schedule`'s `select`) is the `step` function over firing/advance
  events.
-/

namespace WeatherLady

/-- Nanoseconds in one calendar day of local linear time. -/
def nanosPerDay : Int := 86400000000000

/-- Calendar date (day ordinal) of an instant: floor division by the day length. -/
def dateOf (t : Int) : Int := t / nanosPerDay

/-- Time of day of an instant, in nanoseconds since local midnight. -/
def todOf (t : Int) : Int := t % nanosPerDay

/-- Midnight (00:00:00.000) of the calendar date holding the instant `t`. -/
def midnightOf (t : Int) : Int := t - t % nanosPerDay

/-- Nanoseconds since midnight of a wall-clock `hour:minute:00.000`. -/
def timeOfDayNanos (hour minute : Int) : Int :=
  hour * 3600000000000 + minute * 60000000000

/-- Embedding of the `time.Date(now.Year(), now.Month(), now.Day(), target.Hour(),
target.Minute(), 0, 0, now.Location())` expression inside `nextRun`: the instant on
the same calendar date as `now` at the target hour:minute:00.000. -/
def scheduledCandidate (now targetHour targetMinute : Int) : Int :=
  midnightOf now + timeOfDayNanos targetHour targetMinute

/-- Embedding of `(*SubscriptionManager).nextRun`: if the same-date candidate is
strictly after `now` it is the fire instant, otherwise the candidate plus the
configured interval. -/
def nextRun (now targetHour targetMinute interval : Int) : Int :=
  let scheduled := scheduledCandidate now targetHour targetMinute
  if now < scheduled then scheduled else scheduled + interval

/-- Default fixed interval between firings: 24 hours, in nanoseconds. -/
def defaultInterval : Int := 86400000000000

/-- Default capture-stage and dispatch-stage timeouts: 30 seconds, in nanoseconds. -/
def defaultTimeout : Int := 30000000000

theorem scheduledCandidate_tod (now h mnt : Int)
    (hh0 : 0 ≤ h) (hh : h < 24) (hm0 : 0 ≤ mnt) (hm : mnt < 60) :
    todOf (scheduledCandidate now h mnt) = timeOfDayNanos h mnt := by
  simp only [scheduledCandidate, midnightOf, todOf, timeOfDayNanos, nanosPerDay]
  omega

theorem scheduledCandidate_date (now h mnt : Int)
    (hh0 : 0 ≤ h) (hh : h < 24) (hm0 : 0 ≤ mnt) (hm : mnt < 60) :
    dateOf (scheduledCandidate now h mnt) = dateOf now := by
  simp only [scheduledCandidate, midnightOf, dateOf, timeOfDayNanos, nanosPerDay]
  omega

/-- Embedding of `domain.Subscription`: a daily forecast delivery configuration.
The Go `Time` field is a `time.Time` of which `nextRun` reads only `Hour()` and
`Minute()`; those two components are kept here. -/
structure Subscription where
  channelID : String
  guildID : String
  timeHour : Int
  timeMinute : Int
  url : String
  elementSelector : String
  message : String
deriving DecidableEq, Repr

/-- Go `error` values as the engine produces and propagates them: `base` is an
opaque collaborator error, `msg` a `fmt.Errorf` message, and `wrap` a
`fmt.Errorf("...: %w", err)` wrapper carrying the underlying error. -/
inductive Err where
  | base (code : Nat)
  | msg (s : String)
  | wrap (s : String) (inner : Err)
deriving DecidableEq, Repr

/-- Embedding of `SubscriptionErrorStage`. -/
inductive SubscriptionErrorStage where
  | capture
  | dispatch
deriving DecidableEq, Repr

/-- One invocation of the error-reporting sink (`m.onError`), with the failing
subscription, the stage tag, and the (wrapped) error passed to it. -/
structure ErrorReport where
  sub : Subscription
  stage : SubscriptionErrorStage
  err : Err
deriving DecidableEq, Repr

/-- Raw rendered bytes produced by the capture port. -/
def Bytes := List Nat

/-- Observable outcome of one `captureAndSend` call: the reports delivered to
the error sink, whether the dispatch port was invoked, and the returned error
(`Except.ok` for a nil return). -/
structure PipelineOutcome where
  reports : List ErrorReport
  dispatchInvoked : Bool
  result : Except Err Unit

/-- Embedding of `(*SubscriptionManager).captureAndSend`.  The capture port's
response for this firing is `capResult`; the dispatch port's response, as a
function of the captured bytes, is `sendFn`. -/
def captureAndSend (sub : Subscription) (capResult : Except Err Bytes)
    (sendFn : Bytes → Except Err Unit) : PipelineOutcome :=
  match capResult with
  | .error err =>
      { reports := [⟨sub, .capture, .wrap "failed to capture forecast" err⟩],
        dispatchInvoked := false,
        result := .error err }
  | .ok imageData =>
      match sendFn imageData with
      | .error err =>
          { reports := [⟨sub, .dispatch, .wrap "failed to dispatch forecast" err⟩],
            dispatchInvoked := true,
            result := .error err }
      | .ok _ =>
          { reports := [], dispatchInvoked := true, result := .ok () }

/-- Embedding of `subscriptionEntry`: the subscription plus the state of its
private `stopChan` (closed or not) and its task's armed timer deadline (the
instant the countdown elapses). -/
structure SubscriptionEntry where
  subscription : Subscription
  stopClosed : Bool
  deadline : Int
deriving DecidableEq, Repr

/-- The clock collaborator held in `nowFn`: the real wall clock
(`time.Now`, the default) or an injected function. -/
inductive ClockSource where
  | systemClock
  | injected (f : Unit → Int)

/-- The error-reporting callback held in `onError`: the default no-op handler
or an injected one. -/
inductive ErrorHandler where
  | noop
  | injected (f : Subscription → SubscriptionErrorStage → Err → Unit)

/-- Lookup in the destination registry (`m.subscriptions[channelID]`). -/
def lookupReg (reg : List (String × List Nat)) (k : String) : Option (List Nat) :=
  match reg with
  | [] => none
  | (k₁, v) :: rest => if k₁ = k then some v else lookupReg rest k

/-- Map append (`m.subscriptions[ch] = append(m.subscriptions[ch], entry)`):
appends an entry id to a destination's collection, creating it if absent. -/
def appendReg (reg : List (String × List Nat)) (k : String) (id : Nat) :
    List (String × List Nat) :=
  match reg with
  | [] => [(k, [id])]
  | (k₁, v) :: rest =>
      if k₁ = k then (k₁, v ++ [id]) :: rest else (k₁, v) :: appendReg rest k id

/-- Map delete (`delete(m.subscriptions, channelID)`). -/
def deleteReg (reg : List (String × List Nat)) (k : String) :
    List (String × List Nat) :=
  match reg with
  | [] => []
  | (k₁, v) :: rest => if k₁ = k then deleteReg rest k else (k₁, v) :: deleteReg rest k

/-- All entry ids across every destination of the registry. -/
def regIds (reg : List (String × List Nat)) : List Nat :=
  (reg.map Prod.snd).flatten

/-- Lookup of an entry by id in the entry table. -/
def lookupEntry (es : List (Nat × SubscriptionEntry)) (id : Nat) :
    Option SubscriptionEntry :=
  match es with
  | [] => none
  | (i, e) :: rest => if i = id then some e else lookupEntry rest id

/-- Pointwise update of the entry with the given id. -/
def updateEntry (es : List (Nat × SubscriptionEntry)) (id : Nat)
    (f : SubscriptionEntry → SubscriptionEntry) : List (Nat × SubscriptionEntry) :=
  match es with
  | [] => []
  | (i, e) :: rest =>
      if i = id then (i, f e) :: updateEntry rest id f
      else (i, e) :: updateEntry rest id f

/-- Closing an entry's `stopChan` (`close(entry.stopChan)`), as a state change. -/
def closeEntry (es : List (Nat × SubscriptionEntry)) (id : Nat) :
    List (Nat × SubscriptionEntry) :=
  updateEntry es id fun e => { e with stopClosed := true }

/-- Closing a list of entries in order. -/
def closeMany (es : List (Nat × SubscriptionEntry)) (ids : List Nat) :
    List (Nat × SubscriptionEntry) :=
  ids.foldl closeEntry es

/-- Whether closing the listed entries in order would panic in Go: `close` of
an already-closed channel panics, and a missing entry has no channel to close. -/
def closeListPanics (es : List (Nat × SubscriptionEntry)) (ids : List Nat) : Bool :=
  match ids with
  | [] => false
  | id :: rest =>
      match lookupEntry es id with
      | some e => e.stopClosed || closeListPanics (closeEntry es id) rest
      | none => true

/-- Embedding of `SubscriptionManager`.  Port and store collaborators are
represented by their presence (`hasCapture`, `hasSender`, `hasStore`); their
per-call responses are parameters of the operations below.  `clockNow` is the
current reading of the injected clock, advanced by `Event.advance`. -/
structure SubscriptionManager where
  subscriptions : List (String × List Nat)
  entries : List (Nat × SubscriptionEntry)
  nextId : Nat
  hasCapture : Bool
  hasSender : Bool
  hasStore : Bool
  nowFn : ClockSource
  interval : Int
  captureTimeout : Int
  dispatchTimeout : Int
  onError : ErrorHandler
  clockNow : Int

/-- Embedding of `WithSubscriptionClock`: a nil function (`none`) is ignored. -/
def WithSubscriptionClock (nowFn : Option (Unit → Int)) :
    SubscriptionManager → SubscriptionManager := fun m =>
  match nowFn with
  | some f => { m with nowFn := .injected f }
  | none => m

/-- Embedding of `WithSubscriptionInterval`: applied only when positive. -/
def WithSubscriptionInterval (interval : Int) :
    SubscriptionManager → SubscriptionManager := fun m =>
  if 0 < interval then { m with interval := interval } else m

/-- Embedding of `WithCaptureTimeout`: applied only when positive. -/
def WithCaptureTimeout (timeout : Int) :
    SubscriptionManager → SubscriptionManager := fun m =>
  if 0 < timeout then { m with captureTimeout := timeout } else m

/-- Embedding of `WithDispatchTimeout`: applied only when positive. -/
def WithDispatchTimeout (timeout : Int) :
    SubscriptionManager → SubscriptionManager := fun m =>
  if 0 < timeout then { m with dispatchTimeout := timeout } else m

/-- Embedding of `WithSubscriptionErrorHandler`: a nil handler (`none`) is
ignored. -/
def WithSubscriptionErrorHandler
    (handler : Option (Subscription → SubscriptionErrorStage → Err → Unit)) :
    SubscriptionManager → SubscriptionManager := fun m =>
  match handler with
  | some f => { m with onError := .injected f }
  | none => m

/-- Embedding of `WithSubscriptionStore`: attaches a persistence collaborator. -/
def WithSubscriptionStore : SubscriptionManager → SubscriptionManager := fun m =>
  { m with hasStore := true }

/-- Embedding of `NewSubscriptionManager`: the defaults (empty registry, real
clock, 24-hour interval, 30-second stage timeouts, no-op error handler, no
store), then the options applied in order. -/
def NewSubscriptionManager (hasCapture hasSender : Bool)
    (opts : List (SubscriptionManager → SubscriptionManager)) : SubscriptionManager :=
  opts.foldl (fun m opt => opt m)
    { subscriptions := [], entries := [], nextId := 0,
      hasCapture := hasCapture, hasSender := hasSender, hasStore := false,
      nowFn := .systemClock, interval := defaultInterval,
      captureTimeout := defaultTimeout, dispatchTimeout := defaultTimeout,
      onError := .noop, clockNow := 0 }

/-- Embedding of `(*SubscriptionManager).register`: create an entry with a
fresh open `stopChan`, append it to the destination's collection, and launch
its task, whose timer is armed at the `nextRun` instant computed now. -/
def register (m : SubscriptionManager) (sub : Subscription) : SubscriptionManager :=
  let entry : SubscriptionEntry :=
    { subscription := sub, stopClosed := false,
      deadline := nextRun m.clockNow sub.timeHour sub.timeMinute m.interval }
  { m with
    subscriptions := appendReg m.subscriptions sub.channelID m.nextId,
    entries := m.entries ++ [(m.nextId, entry)],
    nextId := m.nextId + 1 }

/-- Embedding of `(*SubscriptionManager).Add`.  `createResult` is the response
of `store.Create` for this call (consulted only when a store is configured). -/
def Add (m : SubscriptionManager) (sub : Subscription)
    (createResult : Except Err Unit) : Except Err SubscriptionManager :=
  if m.hasCapture = false then
    .error (.msg "subscription manager missing forecast capture dependency")
  else if m.hasSender = false then
    .error (.msg "subscription manager missing forecast sender dependency")
  else if m.hasStore then
    match createResult with
    | .error e => .error (.wrap "persist subscription" e)
    | .ok _ => .ok (register m sub)
  else
    .ok (register m sub)

/-- Embedding of `(*SubscriptionManager).Remove`.  `deleteResult` is the
response of `store.DeleteByChannel` (consulted only when a store is
configured).  On success returns the new state and the count: the live count
when nonzero, otherwise the store's count. -/
def Remove (m : SubscriptionManager) (channelID : String)
    (deleteResult : Except Err Int) : Except Err (SubscriptionManager × Int) :=
  match (if m.hasStore then
          match deleteResult with
          | .error e => Except.error (Err.wrap "delete subscriptions" e)
          | .ok n => Except.ok n
         else Except.ok 0) with
  | .error e => .error e
  | .ok deletedFromStore =>
      let ids := (lookupReg m.subscriptions channelID).getD []
      let m₁ := { m with
        subscriptions := deleteReg m.subscriptions channelID,
        entries := closeMany m.entries ids }
      .ok (m₁, if 0 < ids.length then (ids.length : Int) else deletedFromStore)

/-- Embedding of `(*SubscriptionManager).Shutdown`: detach the whole registry,
close every detached entry, and return the total count. -/
def Shutdown (m : SubscriptionManager) : SubscriptionManager × Int :=
  let ids := regIds m.subscriptions
  ({ m with subscriptions := [], entries := closeMany m.entries ids },
   (ids.length : Int))

/-- Embedding of `(*SubscriptionManager).LoadExisting`.  `listResult` is the
response of `store.List` (consulted only when a store is configured). -/
def LoadExisting (m : SubscriptionManager)
    (listResult : Except Err (List Subscription)) : Except Err SubscriptionManager :=
  if m.hasStore = false then
    .ok m
  else
    match listResult with
    | .error e => .error (.wrap "load subscriptions" e)
    | .ok subs => .ok (subs.foldl register m)

/-- One pipeline invocation observed while running the scheduler tasks. -/
structure Firing where
  id : Nat
  outcome : PipelineOutcome

/-- Environment events driving the scheduler tasks: advancing the injected
clock, or a task reaching its `select` with the given port responses. -/
inductive Event where
  | advance (d : Nat)
  | fire (id : Nat) (capResult : Except Err Bytes) (sendFn : Bytes → Except Err Unit)

/-- Embedding of one round of `(*SubscriptionManager).schedule`'s `select`
loop for entry `id`, together with clock advancement.  A task whose `stopChan`
is closed observes the stop signal and exits without firing; a task whose
timer has not elapsed keeps waiting; otherwise it runs `captureAndSend` and —
on success or failure alike — rearms its timer one interval from now
(`timer.Reset(m.interval)`). -/
def step (m : SubscriptionManager) : Event → SubscriptionManager × List Firing
  | .advance d => ({ m with clockNow := m.clockNow + (d : Int) }, [])
  | .fire id capResult sendFn =>
      match lookupEntry m.entries id with
      | none => (m, [])
      | some e =>
          if e.stopClosed then (m, [])
          else if e.deadline ≤ m.clockNow then
            let outcome := captureAndSend e.subscription capResult sendFn
            ({ m with
                entries := updateEntry m.entries id
                  fun e₁ => { e₁ with deadline := m.clockNow + m.interval } },
             [⟨id, outcome⟩])
          else (m, [])

/-- Running a sequence of events, collecting every pipeline invocation. -/
def run (m : SubscriptionManager) : List Event → SubscriptionManager × List Firing
  | [] => (m, [])
  | ev :: rest =>
      let s₁ := step m ev
      let s₂ := run s₁.1 rest
      (s₂.1, s₁.2 ++ s₂.2)

/-- Whether the entry's task can no longer fire: its `stopChan` is closed, or
no entry with this id exists. -/
def entryStopped (es : List (Nat × SubscriptionEntry)) (id : Nat) : Bool :=
  match lookupEntry es id with
  | some e => e.stopClosed
  | none => true

/-- Whether the entry exists and its `stopChan` is still open. -/
def entryOpen (es : List (Nat × SubscriptionEntry)) (id : Nat) : Bool :=
  match lookupEntry es id with
  | some e => !e.stopClosed
  | none => false

/-- Registry well-formedness (the spec's registry invariant): the ids listed in
the registry are pairwise distinct, and each one names an entry whose task is
live (its `stopChan` open). -/
def WF (m : SubscriptionManager) : Prop :=
  (regIds m.subscriptions).Nodup ∧
  ∀ id ∈ regIds m.subscriptions, entryOpen m.entries id = true

/-- Number of entries in the table whose `stopChan` is still open. -/
def liveEntryCount (es : List (Nat × SubscriptionEntry)) : Nat :=
  (es.filter fun p => !p.2.stopClosed).length

/-- The subscription used in concrete scenarios. -/
def sampleSub : Subscription :=
  { channelID := "channel-1", guildID := "guild-1", timeHour := 8, timeMinute := 0,
    url := "https://tenki.jp/", elementSelector := "#forecast-map-wrap",
    message := "morning forecast" }

/-- A second subscription on the same destination with a different target. -/
def eveningSub : Subscription :=
  { channelID := "channel-1", guildID := "guild-1", timeHour := 20, timeMinute := 30,
    url := "https://tenki.jp/", elementSelector := "#forecast-map-wrap",
    message := "evening forecast" }

/-- A dispatch port that always succeeds, for concrete scenarios. -/
def alwaysOkSend : Bytes → Except Err Unit := fun _ => Except.ok ()

/-- A dispatch port that always fails, for concrete scenarios. -/
def alwaysFailSend : Bytes → Except Err Unit := fun _ => Except.error (.base 9)

/-- A manager with both ports, no store, and one registered subscription. -/
def managerW : SubscriptionManager :=
  register (NewSubscriptionManager true true []) sampleSub

/-- The manager `managerW` after `Remove` detached and cancelled entry 0. -/
def removedW : SubscriptionManager :=
  { managerW with subscriptions := [], entries := closeMany managerW.entries [0] }

/-- The manager `managerW` with the injected clock advanced past entry 0's
first fire instant (08:00 of day 0). -/
def firingManagerW : SubscriptionManager :=
  { managerW with clockNow := 28800000000000 }

/-- A manager with two registered subscriptions on the same destination. -/
def managerTwoW : SubscriptionManager :=
  register managerW eveningSub

/-- The manager `managerTwoW` after `Remove` detached and cancelled both
entries of its single destination. -/
def removedTwoW : SubscriptionManager :=
  { managerTwoW with subscriptions := [], entries := closeMany managerTwoW.entries [0, 1] }

/-- A manager with both ports and a persistence collaborator, nothing
registered yet. -/
def storeManagerW : SubscriptionManager :=
  NewSubscriptionManager true true [WithSubscriptionStore]

/-- Three persisted subscriptions, as a persistence stub would list them. -/
def threeSubsW : List Subscription :=
  [sampleSub, eveningSub, { sampleSub with channelID := "channel-2" }]

/-- The manager `storeManagerW` after reloading the three stored
subscriptions. -/
def loadedW : SubscriptionManager :=
  threeSubsW.foldl register storeManagerW

/-- The events driving the C4 scenario: advance the fake clock past several
intervals and attempt to fire the removed entry in between. -/
def eventsW : List Event :=
  [.advance 100000000000000, .fire 0 (.ok [1]) alwaysOkSend,
   .advance 200000000000000, .fire 0 (.error (.base 3)) alwaysFailSend]

/-- C1: the first fire instant computed at task creation is the candidate on the
same calendar date as `now` at the target hour:minute:00.000 when that candidate
is strictly after `now`, and otherwise that candidate plus the configured fixed
interval (24 hours by default). -/
theorem C1_nextRun_first_fire (now h mnt interval : Int)
    (hh0 : 0 ≤ h) (hh : h < 24) (hm0 : 0 ≤ mnt) (hm : mnt < 60) :
    dateOf (scheduledCandidate now h mnt) = dateOf now ∧
    todOf (scheduledCandidate now h mnt) = timeOfDayNanos h mnt ∧
    (now < scheduledCandidate now h mnt →
      nextRun now h mnt interval = scheduledCandidate now h mnt) ∧
    (scheduledCandidate now h mnt ≤ now →
      nextRun now h mnt interval = scheduledCandidate now h mnt + interval) := by
  refine ⟨scheduledCandidate_date now h mnt hh0 hh hm0 hm,
    scheduledCandidate_tod now h mnt hh0 hh hm0 hm, ?_, ?_⟩
  · intro hlt
    simp [nextRun, hlt]
  · intro hle
    simp [nextRun, not_lt.mpr hle]

/-- C1 witness: clock at 07:00 of day 0 with target 08:00 fires the same day at
08:00 (scenario A); clock at 09:00 with target 08:00 fires one default interval
after the same-day 08:00 candidate (scenario B). -/
theorem C1_nextRun_first_fire_witness :
    dateOf (scheduledCandidate 25200000000000 8 0) = dateOf 25200000000000 ∧
    todOf (scheduledCandidate 25200000000000 8 0) = timeOfDayNanos 8 0 ∧
    (25200000000000 < scheduledCandidate 25200000000000 8 0 →
      nextRun 25200000000000 8 0 defaultInterval = scheduledCandidate 25200000000000 8 0) ∧
    (scheduledCandidate 25200000000000 8 0 ≤ 25200000000000 →
      nextRun 25200000000000 8 0 defaultInterval =
        scheduledCandidate 25200000000000 8 0 + defaultInterval) := by
  exact C1_nextRun_first_fire 25200000000000 8 0 defaultInterval
    (by decide) (by decide) (by decide) (by decide)

/-- C2: when the capture stage fails, the dispatch port is never invoked, the
error sink receives exactly one report tagged `capture` carrying the underlying
error, and the pipeline returns failure; the pipeline returns success exactly
when both the capture and dispatch stages succeed. -/
theorem C2_capture_failure_isolation (sub : Subscription) (e : Err)
    (sendFn : Bytes → Except Err Unit) :
    (captureAndSend sub (.error e) sendFn).dispatchInvoked = false ∧
    (captureAndSend sub (.error e) sendFn).reports =
      [⟨sub, .capture, .wrap "failed to capture forecast" e⟩] ∧
    (captureAndSend sub (.error e) sendFn).result = .error e ∧
    (∀ capResult : Except Err Bytes,
      (captureAndSend sub capResult sendFn).result = .ok () ↔
        ∃ data, capResult = .ok data ∧ sendFn data = .ok ()) := by
  refine ⟨rfl, rfl, rfl, ?_⟩
  intro capResult
  constructor
  · intro hok
    cases capResult with
    | error err => simp [captureAndSend] at hok
    | ok data =>
        refine ⟨data, rfl, ?_⟩
        cases hsend : sendFn data with
        | error err => simp [captureAndSend, hsend] at hok
        | ok u => rfl
  · rintro ⟨data, rfl, hsend⟩
    simp [captureAndSend, hsend]

/-- C2 witness: a concrete failing capture produces no dispatch call, exactly
one capture-tagged report, and a failed pipeline result. -/
theorem C2_capture_failure_isolation_witness :
    (captureAndSend sampleSub (.error (.base 7)) alwaysOkSend).dispatchInvoked = false ∧
    (captureAndSend sampleSub (.error (.base 7)) alwaysOkSend).reports =
      [⟨sampleSub, .capture, .wrap "failed to capture forecast" (.base 7)⟩] ∧
    (captureAndSend sampleSub (.error (.base 7)) alwaysOkSend).result = .error (.base 7) ∧
    (∀ capResult : Except Err Bytes,
      (captureAndSend sampleSub capResult alwaysOkSend).result = .ok () ↔
        ∃ data, capResult = .ok data ∧ alwaysOkSend data = .ok ()) :=
  C2_capture_failure_isolation sampleSub (.base 7) alwaysOkSend

theorem lookupEntry_updateEntry (es : List (Nat × SubscriptionEntry)) (id j : Nat)
    (f : SubscriptionEntry → SubscriptionEntry) :
    lookupEntry (updateEntry es id f) j =
      if j = id then (lookupEntry es j).map f else lookupEntry es j := by
  induction es with
  | nil => by_cases hj : j = id <;> simp [updateEntry, lookupEntry, hj]
  | cons p rest ih =>
      obtain ⟨i, e⟩ := p
      by_cases hid : i = id
      · simp only [updateEntry, if_pos hid]
        by_cases hij : i = j
        · subst hij
          simp [lookupEntry, hid]
        · simp only [lookupEntry, if_neg hij]
          exact ih
      · simp only [updateEntry, if_neg hid]
        by_cases hij : i = j
        · subst hij
          have hj : ¬ i = id := hid
          simp [lookupEntry, hj]
        · simp only [lookupEntry, if_neg hij]
          exact ih

theorem entryStopped_closeEntry_self (es : List (Nat × SubscriptionEntry)) (id : Nat) :
    entryStopped (closeEntry es id) id = true := by
  simp only [entryStopped, closeEntry, lookupEntry_updateEntry, if_pos rfl]
  cases lookupEntry es id <;> simp

theorem entryStopped_closeEntry_mono (es : List (Nat × SubscriptionEntry)) (id j : Nat)
    (h : entryStopped es id = true) : entryStopped (closeEntry es j) id = true := by
  by_cases hij : id = j
  · subst hij
    exact entryStopped_closeEntry_self es id
  · simp only [entryStopped, closeEntry, lookupEntry_updateEntry, if_neg hij]
    exact h

theorem entryStopped_closeMany_mono (ids : List Nat) (es : List (Nat × SubscriptionEntry))
    (id : Nat) (h : entryStopped es id = true) :
    entryStopped (closeMany es ids) id = true := by
  induction ids generalizing es with
  | nil => exact h
  | cons a rest ih =>
      simp only [closeMany, List.foldl_cons]
      exact ih (closeEntry es a) (entryStopped_closeEntry_mono es id a h)

theorem entryStopped_closeMany (ids : List Nat) (es : List (Nat × SubscriptionEntry))
    (id : Nat) (h : id ∈ ids) : entryStopped (closeMany es ids) id = true := by
  induction ids generalizing es with
  | nil => cases h
  | cons a rest ih =>
      simp only [closeMany, List.foldl_cons]
      rcases List.mem_cons.mp h with rfl | hmem
      · exact entryStopped_closeMany_mono rest (closeEntry es id) id
          (entryStopped_closeEntry_self es id)
      · exact ih (closeEntry es a) hmem

theorem step_preserves_stopped (m : SubscriptionManager) (ev : Event) (id : Nat)
    (h : entryStopped m.entries id = true) :
    entryStopped (step m ev).1.entries id = true := by
  cases ev with
  | advance d => exact h
  | fire j capResult sendFn =>
      simp only [step]
      cases hj : lookupEntry m.entries j with
      | none => exact h
      | some e =>
          by_cases hstop : e.stopClosed
          · simp [hstop, h]
          · by_cases hdl : e.deadline ≤ m.clockNow
            · simp only [hstop, if_neg, Bool.false_eq_true, if_false, if_pos hdl]
              simp only [entryStopped, lookupEntry_updateEntry] at h ⊢
              by_cases hij : id = j
              · subst hij
                rw [hj] at h
                simp only [entryStopped] at h
                exact absurd h (by simp [hstop])
              · simp only [if_neg hij]
                exact h
            · simp [hstop, hdl, h]

theorem step_no_fire_of_stopped (m : SubscriptionManager) (ev : Event) (id : Nat)
    (h : entryStopped m.entries id = true) :
    (step m ev).2.filter (fun f => f.id == id) = [] := by
  cases ev with
  | advance d => rfl
  | fire j capResult sendFn =>
      simp only [step]
      cases hj : lookupEntry m.entries j with
      | none => rfl
      | some e =>
          by_cases hstop : e.stopClosed
          · simp [hstop]
          · by_cases hdl : e.deadline ≤ m.clockNow
            · simp only [hstop, Bool.false_eq_true, if_false, if_pos hdl]
              have hij : j ≠ id := by
                intro hcontra
                subst hcontra
                simp only [entryStopped, hj] at h
                exact hstop (by simpa using h)
              have hbeq : (j == id) = false := beq_eq_false_iff_ne.mpr hij
              simp [List.filter, hbeq]
            · simp [hstop, hdl]

theorem run_no_fire_of_stopped (evs : List Event) (m : SubscriptionManager) (id : Nat)
    (h : entryStopped m.entries id = true) :
    (run m evs).2.filter (fun f => f.id == id) = [] := by
  induction evs generalizing m with
  | nil => rfl
  | cons ev rest ih =>
      simp only [run, List.filter_append]
      rw [step_no_fire_of_stopped m ev id h,
        ih (step m ev).1 (step_preserves_stopped m ev id h)]
      rfl

theorem Remove_ok_entries (m : SubscriptionManager) (ch : String)
    (del : Except Err Int) (m₁ : SubscriptionManager) (cnt : Int)
    (h : Remove m ch del = .ok (m₁, cnt)) :
    m₁.entries = closeMany m.entries ((lookupReg m.subscriptions ch).getD []) := by
  by_cases hs : m.hasStore
  · cases del with
    | error e => simp [Remove, hs] at h
    | ok d =>
        simp only [Remove, hs, if_pos] at h
        cases h
        rfl
  · simp only [Remove, if_neg hs] at h
    cases h
    rfl

/-- C3: when capture succeeds and dispatch fails, the firing produces exactly
one error report, tagged `dispatch` and carrying the underlying error; and
after any firing — whatever the two stage responses were — the task rearms its
countdown to exactly one fixed interval from the rearm moment and keeps
running (its entry stays present with its `stopChan` untouched). -/
theorem C3_dispatch_failure_and_rearm (m : SubscriptionManager) (id : Nat)
    (data : Bytes) (er : Err) (sendFn : Bytes → Except Err Unit)
    (capResult₁ : Except Err Bytes) (sendFn₁ : Bytes → Except Err Unit)
    (e : SubscriptionEntry)
    (hlook : lookupEntry m.entries id = some e)
    (hopen : e.stopClosed = false)
    (hdue : e.deadline ≤ m.clockNow)
    (hsend : sendFn data = .error er) :
    (step m (.fire id (.ok data) sendFn)).2.map (fun f => f.outcome.reports) =
      [[⟨e.subscription, .dispatch, .wrap "failed to dispatch forecast" er⟩]] ∧
    lookupEntry (step m (.fire id capResult₁ sendFn₁)).1.entries id =
      some { e with deadline := m.clockNow + m.interval } := by
  constructor
  · simp [step, hlook, hopen, hdue, captureAndSend, hsend]
  · simp [step, hlook, hopen, hdue, lookupEntry_updateEntry]

/-- C3 witness: with the clock at entry 0's fire instant, a firing whose
capture succeeds and dispatch fails yields exactly one dispatch-tagged report,
and a firing with a failing capture still rearms the entry one default
interval ahead without stopping it. -/
theorem C3_dispatch_failure_and_rearm_witness :
    (step firingManagerW (.fire 0 (.ok [1]) alwaysFailSend)).2.map
        (fun f => f.outcome.reports) =
      [[⟨sampleSub, .dispatch, .wrap "failed to dispatch forecast" (.base 9)⟩]] ∧
    lookupEntry (step firingManagerW
        (.fire 0 (.error (.base 3)) alwaysOkSend)).1.entries 0 =
      some { subscription := sampleSub, stopClosed := false,
             deadline := 28800000000000 + 86400000000000 } :=
  C3_dispatch_failure_and_rearm firingManagerW 0 [1] (.base 9) alwaysFailSend
    (.error (.base 3)) alwaysOkSend
    { subscription := sampleSub, stopClosed := false, deadline := 28800000000000 }
    (by decide) rfl (by decide) rfl

/-- C4: after `Remove(destination)` returns successfully, no run of the
scheduler tasks — however the clock is advanced and whatever port responses
the environment supplies — produces a pipeline invocation for any of that
destination's former entries. -/
theorem C4_no_fire_after_remove (m : SubscriptionManager) (ch : String)
    (del : Except Err Int) (m₁ : SubscriptionManager) (cnt : Int)
    (evs : List Event) (id : Nat)
    (hrem : Remove m ch del = .ok (m₁, cnt))
    (hid : id ∈ (lookupReg m.subscriptions ch).getD []) :
    (run m₁ evs).2.filter (fun f => f.id == id) = [] := by
  have hstopped : entryStopped m₁.entries id = true := by
    rw [Remove_ok_entries m ch del m₁ cnt hrem]
    exact entryStopped_closeMany _ m.entries id hid
  exact run_no_fire_of_stopped evs m₁ id hstopped

/-- C4 witness: removing the only destination of a one-entry manager and then
advancing a fake clock past several intervals with firing attempts produces no
pipeline invocation for the removed entry. -/
theorem C4_no_fire_after_remove_witness :
    (run removedW eventsW).2.filter (fun f => f.id == 0) = [] :=
  C4_no_fire_after_remove managerW "channel-1" (.ok 0) removedW 1 eventsW 0
    rfl (by decide)

/-- C5: when the capture port or the dispatch port is not configured, `Add`
returns a configuration error; no task is started and the registry is
unchanged, since no successor state is produced. -/
theorem C5_add_requires_ports (m : SubscriptionManager) (sub : Subscription)
    (createResult : Except Err Unit) :
    (m.hasCapture = false →
      Add m sub createResult =
        .error (.msg "subscription manager missing forecast capture dependency")) ∧
    (m.hasCapture = true → m.hasSender = false →
      Add m sub createResult =
        .error (.msg "subscription manager missing forecast sender dependency")) := by
  constructor
  · intro hc
    simp [Add, hc]
  · intro hc hs
    simp [Add, hc, hs]

/-- C5 witness: a manager missing the capture port and one missing the
dispatch port both reject a concrete `Add` with a configuration error. -/
theorem C5_add_requires_ports_witness :
    (NewSubscriptionManager false true []).hasCapture = false ∧
    Add (NewSubscriptionManager false true []) sampleSub (.ok ()) =
      .error (.msg "subscription manager missing forecast capture dependency") ∧
    Add (NewSubscriptionManager true false []) sampleSub (.ok ()) =
      .error (.msg "subscription manager missing forecast sender dependency") :=
  ⟨rfl,
   (C5_add_requires_ports (NewSubscriptionManager false true []) sampleSub (.ok ())).1 rfl,
   (C5_add_requires_ports (NewSubscriptionManager true false []) sampleSub (.ok ())).2 rfl rfl⟩

/-- C6: with a persistence collaborator configured, a failed `create` makes
`Add` return the wrapped persistence error and a failed delete makes `Remove`
return the wrapped persistence error; in both cases no successor state is
produced, so nothing is registered, scheduled, cancelled, or dropped from the
registry. -/
theorem C6_persistence_failure_aborts (m : SubscriptionManager)
    (sub : Subscription) (ch : String) (e : Err)
    (hstore : m.hasStore = true) :
    (m.hasCapture = true → m.hasSender = true →
      Add m sub (.error e) = .error (.wrap "persist subscription" e)) ∧
    Remove m ch (.error e) = .error (.wrap "delete subscriptions" e) := by
  constructor
  · intro hc hs
    simp [Add, hc, hs, hstore]
  · simp [Remove, hstore]

/-- C6 witness: a store-backed manager rejects a concrete `Add` on a failed
create and a concrete `Remove` on a failed delete, each with the wrapped
persistence error. -/
theorem C6_persistence_failure_aborts_witness :
    (Add (NewSubscriptionManager true true [WithSubscriptionStore]) sampleSub
        (.error (.base 5)) = .error (.wrap "persist subscription" (.base 5))) ∧
    Remove (NewSubscriptionManager true true [WithSubscriptionStore]) "channel-1"
        (.error (.base 6)) = .error (.wrap "delete subscriptions" (.base 6)) :=
  ⟨(C6_persistence_failure_aborts (NewSubscriptionManager true true [WithSubscriptionStore])
      sampleSub "channel-1" (.base 5) rfl).1 rfl rfl,
   (C6_persistence_failure_aborts (NewSubscriptionManager true true [WithSubscriptionStore])
      sampleSub "channel-1" (.base 6) rfl).2⟩

/-- C7: a successful `Remove(destination)` cancels every live entry of that
destination and returns the live count when it is nonzero, and otherwise the
count reported by the persistence delete — which is 0 when no persistence
collaborator is configured. -/
theorem C7_remove_count (m : SubscriptionManager) (ch : String) (d : Int)
    (m₁ : SubscriptionManager) (cnt : Int) (id : Nat)
    (hrem : Remove m ch (.ok d) = .ok (m₁, cnt)) :
    cnt = (if 0 < ((lookupReg m.subscriptions ch).getD []).length
           then (((lookupReg m.subscriptions ch).getD []).length : Int)
           else if m.hasStore then d else 0) ∧
    (id ∈ (lookupReg m.subscriptions ch).getD [] →
      entryStopped m₁.entries id = true) := by
  constructor
  · by_cases hs : m.hasStore
    · simp only [Remove, hs, if_pos] at hrem
      cases hrem
      simp [hs]
    · simp only [Remove, if_neg hs] at hrem
      cases hrem
      simp [hs]
  · intro hid
    rw [Remove_ok_entries m ch (.ok d) m₁ cnt hrem]
    exact entryStopped_closeMany _ m.entries id hid

/-- C7 witness (scenario C): removing the destination holding two live
entries returns count 2 — the live count, not the store fallback — and
cancels both entries. -/
theorem C7_remove_count_witness :
    Remove managerTwoW "channel-1" (.ok 0) = .ok (removedTwoW, 2) ∧
    (2 : Int) = (if 0 < ((lookupReg managerTwoW.subscriptions "channel-1").getD []).length
       then (((lookupReg managerTwoW.subscriptions "channel-1").getD []).length : Int)
       else if managerTwoW.hasStore then 0 else 0) ∧
    entryStopped removedTwoW.entries 0 = true ∧
    entryStopped removedTwoW.entries 1 = true :=
  ⟨rfl,
   (C7_remove_count managerTwoW "channel-1" 0 removedTwoW 2 0 rfl).1,
   (C7_remove_count managerTwoW "channel-1" 0 removedTwoW 2 0 rfl).2 (by decide),
   (C7_remove_count managerTwoW "channel-1" 0 removedTwoW 2 1 rfl).2 (by decide)⟩

theorem entryOpen_closeEntry_ne (es : List (Nat × SubscriptionEntry)) (id j : Nat)
    (h : id ≠ j) (hopen : entryOpen es id = true) :
    entryOpen (closeEntry es j) id = true := by
  simp only [entryOpen, closeEntry, lookupEntry_updateEntry, if_neg h]
  exact hopen

theorem closeListPanics_eq_false (ids : List Nat) (es : List (Nat × SubscriptionEntry))
    (hnodup : ids.Nodup) (hopen : ∀ id ∈ ids, entryOpen es id = true) :
    closeListPanics es ids = false := by
  induction ids generalizing es with
  | nil => rfl
  | cons a rest ih =>
      have ha := hopen a (List.mem_cons_self a rest)
      cases hlook : lookupEntry es a with
      | none => simp [entryOpen, hlook] at ha
      | some e =>
          have hstop : e.stopClosed = false := by
            simp only [entryOpen, hlook] at ha
            simpa using ha
          simp only [closeListPanics, hlook, hstop, Bool.false_or]
          have hnotmem : a ∉ rest := (List.nodup_cons.mp hnodup).1
          refine ih (closeEntry es a) (List.nodup_cons.mp hnodup).2 ?_
          intro id hid
          exact entryOpen_closeEntry_ne es id a
            (fun hcontra => hnotmem (hcontra ▸ hid)) (hopen id (List.mem_cons_of_mem a hid))

/-- C8: `Shutdown` is idempotent: under the registry invariant the first call
returns the total number of entries across all destinations, empties the
registry, and closes no cancellation signal twice; the second call returns 0
and closes nothing at all, so it also cannot panic. -/
theorem C8_shutdown_idempotent (m : SubscriptionManager) (hwf : WF m) :
    (Shutdown m).2 = ((regIds m.subscriptions).length : Int) ∧
    (Shutdown m).1.subscriptions = [] ∧
    closeListPanics m.entries (regIds m.subscriptions) = false ∧
    (Shutdown (Shutdown m).1).2 = 0 ∧
    closeListPanics (Shutdown m).1.entries (regIds (Shutdown m).1.subscriptions) = false := by
  refine ⟨rfl, rfl, ?_, rfl, rfl⟩
  exact closeListPanics_eq_false (regIds m.subscriptions) m.entries hwf.1 hwf.2

/-- C8 witness: shutting down a two-entry manager returns 2, empties the
registry and closes no channel twice, and a second shutdown returns 0 without
closing anything. -/
theorem C8_shutdown_idempotent_witness :
    (Shutdown managerTwoW).2 = ((regIds managerTwoW.subscriptions).length : Int) ∧
    (Shutdown managerTwoW).1.subscriptions = [] ∧
    closeListPanics managerTwoW.entries (regIds managerTwoW.subscriptions) = false ∧
    (Shutdown (Shutdown managerTwoW).1).2 = 0 ∧
    closeListPanics (Shutdown managerTwoW).1.entries
      (regIds (Shutdown managerTwoW).1.subscriptions) = false :=
  C8_shutdown_idempotent managerTwoW (by constructor <;> decide)

theorem regIds_cons (k : String) (v : List Nat) (rest : List (String × List Nat)) :
    regIds ((k, v) :: rest) = v ++ regIds rest := by
  simp [regIds]

theorem length_regIds_appendReg (reg : List (String × List Nat)) (k : String) (id : Nat) :
    (regIds (appendReg reg k id)).length = (regIds reg).length + 1 := by
  induction reg with
  | nil => simp [appendReg, regIds]
  | cons p rest ih =>
      obtain ⟨k₁, v⟩ := p
      by_cases h : k₁ = k
      · simp only [appendReg, if_pos h, regIds_cons, List.length_append]
        simp
        omega
      · simp only [appendReg, if_neg h, regIds_cons, List.length_append, ih]
        omega

theorem foldl_register_newPart (subs : List Subscription) (m : SubscriptionManager) :
    ∃ newPart : List (Nat × SubscriptionEntry),
      (subs.foldl register m).entries = m.entries ++ newPart ∧
      newPart.map (fun p => p.2.subscription) = subs ∧
      ∀ p ∈ newPart, p.2.stopClosed = false := by
  induction subs generalizing m with
  | nil => exact ⟨[], by simp, rfl, by simp⟩
  | cons sub rest ih =>
      obtain ⟨np, h₁, h₂, h₃⟩ := ih (register m sub)
      refine ⟨(m.nextId,
        { subscription := sub, stopClosed := false,
          deadline := nextRun m.clockNow sub.timeHour sub.timeMinute m.interval }) :: np,
        ?_, ?_, ?_⟩
      · simpa [register, List.append_assoc] using h₁
      · simpa using h₂
      · intro p hp
        rcases List.mem_cons.mp hp with rfl | hmem
        · rfl
        · exact h₃ p hmem

theorem foldl_register_regIds (subs : List Subscription) (m : SubscriptionManager) :
    (regIds (subs.foldl register m).subscriptions).length =
      (regIds m.subscriptions).length + subs.length := by
  induction subs generalizing m with
  | nil => simp
  | cons sub rest ih =>
      simp only [List.foldl_cons, ih (register m sub), List.length_cons]
      have : (regIds (register m sub).subscriptions).length =
          (regIds m.subscriptions).length + 1 :=
        length_regIds_appendReg m.subscriptions sub.channelID m.nextId
      omega

/-- C9: `LoadExisting` succeeds as a no-op without a persistence collaborator;
with one, a listing failure returns the wrapped error and registers nothing,
and a successful listing of n subscriptions appends exactly n fresh live
entries — one per listed subscription — to the registry and entry table. -/
theorem C9_load_existing (m : SubscriptionManager) :
    (m.hasStore = false → ∀ listResult, LoadExisting m listResult = .ok m) ∧
    (m.hasStore = true → ∀ e, LoadExisting m (.error e) =
      .error (.wrap "load subscriptions" e)) ∧
    (m.hasStore = true → ∀ subs m₁, LoadExisting m (.ok subs) = .ok m₁ →
      (regIds m₁.subscriptions).length = (regIds m.subscriptions).length + subs.length ∧
      m₁.entries.length = m.entries.length + subs.length ∧
      liveEntryCount m₁.entries = liveEntryCount m.entries + subs.length ∧
      ∃ newPart, m₁.entries = m.entries ++ newPart ∧
        newPart.map (fun p => p.2.subscription) = subs ∧
        ∀ p ∈ newPart, p.2.stopClosed = false) := by
  refine ⟨?_, ?_, ?_⟩
  · intro hs listResult
    simp [LoadExisting, hs]
  · intro hs e
    simp [LoadExisting, hs]
  · intro hs subs m₁ hload
    have hm₁ : m₁ = subs.foldl register m := by
      simp only [LoadExisting, hs, Bool.true_eq_false, if_neg] at hload
      cases hload
      rfl
    subst hm₁
    obtain ⟨np, h₁, h₂, h₃⟩ := foldl_register_newPart subs m
    have hlen : np.length = subs.length := by
      rw [← h₂, List.length_map]
    refine ⟨foldl_register_regIds subs m, ?_, ?_, np, h₁, h₂, h₃⟩
    · rw [h₁, List.length_append, hlen]
    · rw [h₁]
      simp only [liveEntryCount, List.filter_append, List.length_append]
      have : np.filter (fun p => !p.2.stopClosed) = np :=
        List.filter_eq_self.mpr (fun p hp => by simp [h₃ p hp])
      rw [this, hlen]

/-- C9 witness (scenario D): reloading three stored subscriptions into a fresh
store-backed manager yields exactly three registered ids and three live
entries, and a no-store manager reloads as a no-op. -/
theorem C9_load_existing_witness :
    LoadExisting storeManagerW (.ok threeSubsW) = .ok loadedW ∧
    (regIds loadedW.subscriptions).length = 3 ∧
    loadedW.entries.length = 3 ∧
    liveEntryCount loadedW.entries = 3 ∧
    LoadExisting managerW (.error (.base 4)) = .ok managerW := by
  have h := (C9_load_existing storeManagerW).2.2 rfl threeSubsW loadedW rfl
  exact ⟨rfl, by simpa using h.1, by simpa using h.2.1, by simpa using h.2.2.1,
    (C9_load_existing managerW).1 rfl (.error (.base 4))⟩

/-- C10: invalid option values are silently ignored: a nonpositive interval,
capture timeout, or dispatch timeout and a nil clock or error handler each
leave the corresponding default — 24-hour interval, 30-second timeouts, the
real system clock, and the no-op handler — in effect. -/
theorem C10_option_defaults (hc hs : Bool) (d t₁ t₂ : Int)
    (hd : d ≤ 0) (h₁ : t₁ ≤ 0) (h₂ : t₂ ≤ 0) :
    (NewSubscriptionManager hc hs
      [WithSubscriptionInterval d, WithCaptureTimeout t₁, WithDispatchTimeout t₂,
       WithSubscriptionClock none, WithSubscriptionErrorHandler none]).interval =
        86400000000000 ∧
    (NewSubscriptionManager hc hs
      [WithSubscriptionInterval d, WithCaptureTimeout t₁, WithDispatchTimeout t₂,
       WithSubscriptionClock none, WithSubscriptionErrorHandler none]).captureTimeout =
        30000000000 ∧
    (NewSubscriptionManager hc hs
      [WithSubscriptionInterval d, WithCaptureTimeout t₁, WithDispatchTimeout t₂,
       WithSubscriptionClock none, WithSubscriptionErrorHandler none]).dispatchTimeout =
        30000000000 ∧
    (NewSubscriptionManager hc hs
      [WithSubscriptionInterval d, WithCaptureTimeout t₁, WithDispatchTimeout t₂,
       WithSubscriptionClock none, WithSubscriptionErrorHandler none]).nowFn =
        ClockSource.systemClock ∧
    (NewSubscriptionManager hc hs
      [WithSubscriptionInterval d, WithCaptureTimeout t₁, WithDispatchTimeout t₂,
       WithSubscriptionClock none, WithSubscriptionErrorHandler none]).onError =
        ErrorHandler.noop := by
  have hd1 : ¬ (0 < d) := not_lt.mpr hd
  have h₁1 : ¬ (0 < t₁) := not_lt.mpr h₁
  have h₂1 : ¬ (0 < t₂) := not_lt.mpr h₂
  simp [NewSubscriptionManager, WithSubscriptionInterval, WithCaptureTimeout,
    WithDispatchTimeout, WithSubscriptionClock, WithSubscriptionErrorHandler,
    defaultInterval, defaultTimeout, hd1, h₁1, h₂1]

/-- C10 witness: zero durations and nil clock and handler leave every default
in place. -/
theorem C10_option_defaults_witness :
    (NewSubscriptionManager true true
      [WithSubscriptionInterval 0, WithCaptureTimeout 0, WithDispatchTimeout 0,
       WithSubscriptionClock none, WithSubscriptionErrorHandler none]).interval =
        86400000000000 ∧
    (NewSubscriptionManager true true
      [WithSubscriptionInterval 0, WithCaptureTimeout 0, WithDispatchTimeout 0,
       WithSubscriptionClock none, WithSubscriptionErrorHandler none]).captureTimeout =
        30000000000 ∧
    (NewSubscriptionManager true true
      [WithSubscriptionInterval 0, WithCaptureTimeout 0, WithDispatchTimeout 0,
       WithSubscriptionClock none, WithSubscriptionErrorHandler none]).dispatchTimeout =
        30000000000 ∧
    (NewSubscriptionManager true true
      [WithSubscriptionInterval 0, WithCaptureTimeout 0, WithDispatchTimeout 0,
       WithSubscriptionClock none, WithSubscriptionErrorHandler none]).nowFn =
        ClockSource.systemClock ∧
    (NewSubscriptionManager true true
      [WithSubscriptionInterval 0, WithCaptureTimeout 0, WithDispatchTimeout 0,
       WithSubscriptionClock none, WithSubscriptionErrorHandler none]).onError =
        ErrorHandler.noop :=
  C10_option_defaults true true 0 0 0 (by decide) (by decide) (by decide)

end WeatherLady
